import Mathlib

/-!
Verification development for the StreamVid backend controllers.

Each definition below is a shallow embedding of a controller function from
the repository (src/src/controllers/*.js).  Query-string inputs that the
code parses with parseInt/Number are modelled as `Option Int`: `none` is an
absent parameter, `some v` an integer-valued one.  JavaScript's
`x || default` idiom on a query string yields the default only when the
parameter is absent (a present "0" is a truthy string), so it is modelled
by `Option.getD`; `parseInt(x) || default` also replaces a parsed 0 by the
default, which is modelled explicitly where the code uses it.
-/

namespace StreamVid

/-! ### Effective page / limit per list endpoint -/

/-- getLikedVideos (like.controller.js): Math.max(1, parseInt(req.query.page or "1")). -/
def likedVideosPage (p : Option Int) : Int := max 1 (p.getD 1)

/-- getLikedVideos: Math.min(100, Math.max(1, parseInt(req.query.limit or "20"))). -/
def likedVideosLimit (l : Option Int) : Int := min 100 (max 1 (l.getD 20))

/-- getVideoComments (comment controller): Math.max(Number(req.query.page or 1), 1). -/
def commentsPage (p : Option Int) : Int := max (p.getD 1) 1

/-- getVideoComments: Math.min(Math.max(Number(req.query.limit or 10), 1), 100). -/
def commentsLimit (l : Option Int) : Int := min (max (l.getD 10) 1) 100

/-- getUserTweets (tweet.controller.js): parseInt(req.query.page, 10) or-else 1;
a parsed 0 is falsy in JS, so it also falls back to 1. -/
def tweetsPageRaw (p : Option Int) : Int :=
  match p with
  | none => 1
  | some v => if v = 0 then 1 else v

/-- getUserTweets: page = page < 1 ? 1 : page. -/
def tweetsPage (p : Option Int) : Int :=
  let q := tweetsPageRaw p
  if q < 1 then 1 else q

/-- getUserTweets: parseInt(req.query.limit, 10) or-else 20 (0 is falsy). -/
def tweetsLimitRaw (l : Option Int) : Int :=
  match l with
  | none => 20
  | some v => if v = 0 then 20 else v

/-- getUserTweets: limit = Math.max(1, Math.min(limit, 100)). -/
def tweetsLimit (l : Option Int) : Int := max 1 (min (tweetsLimitRaw l) 100)

/-- getUserPlaylists (playlist.controller.js): Math.max(parseInt(req.query.page or "1"), 1). -/
def playlistsPage (p : Option Int) : Int := max (p.getD 1) 1

/-- getUserPlaylists: Math.min(Math.max(parseInt(req.query.limit or "10"), 1), 100). -/
def playlistsLimit (l : Option Int) : Int := min (max (l.getD 10) 1) 100

/-- getAllVideos (video.controller.js): destructuring default page = 1, then
parseInt; no clamping is applied. -/
def videosPage (p : Option Int) : Int := p.getD 1

/-- getAllVideos: destructuring default limit = 10, then parseInt; no clamping
is applied. -/
def videosLimit (l : Option Int) : Int := l.getD 10

/-! ### Toggle-relation engine (like.controller.js, subscription.controller.js)

Document ids are modelled as `Nat`; the string-format `isValidObjectId`
checks are not modelled (every modelled id is well-formed).  A `LikeRow`
carries the fields the controllers read and write: the optional target
references and `likedBy`.  `findOne` returns the first matching row of the
stored list and `deleteOne` on the found document removes exactly that row,
which together are `List.find?` / `List.eraseP`. -/

structure LikeRow where
  video : Option Nat
  comment : Option Nat
  tweet : Option Nat
  likedBy : Nat
deriving DecidableEq

structure LikeState where
  videos : List Nat
  comments : List Nat
  tweets : List Nat
  likes : List LikeRow
deriving DecidableEq

inductive ToggleOutcome
  | err (status : Nat)
  | ok (status : Nat) (liked : Bool) (record : Option LikeRow)
deriving DecidableEq

/-- The shared find-then-delete-or-create step of every toggle controller:
returns `true` together with the extended row list when no row matched, and
`false` together with the list minus the found row when one did. -/
def toggleCore {α : Type} (key : α → Bool) (mk : α) (rows : List α) :
    Bool × List α :=
  match rows.find? key with
  | some _ => (false, rows.eraseP key)
  | none => (true, rows ++ [mk])

/-- Key used by toggleVideoLike: Like.findOne({video: videoId, likedBy: userId}). -/
def likeVideoKey (videoId userId : Nat) (r : LikeRow) : Bool :=
  r.video == some videoId && r.likedBy == userId

/-- Key used by toggleCommentLike. -/
def likeCommentKey (commentId userId : Nat) (r : LikeRow) : Bool :=
  r.comment == some commentId && r.likedBy == userId

/-- Key used by toggleTweetLike. -/
def likeTweetKey (tweetId userId : Nat) (r : LikeRow) : Bool :=
  r.tweet == some tweetId && r.likedBy == userId

/-- toggleVideoLike (like.controller.js): 401 without an actor, 404 when the
video does not exist, otherwise delete-and-200-liked-false or
create-and-201-liked-true. -/
def toggleVideoLike (st : LikeState) (userId : Option Nat) (videoId : Nat) :
    ToggleOutcome × LikeState :=
  match userId with
  | none => (.err 401, st)
  | some uid =>
    if st.videos.contains videoId then
      let mk : LikeRow := ⟨some videoId, none, none, uid⟩
      let t := toggleCore (likeVideoKey videoId uid) mk st.likes
      if t.1 then (.ok 201 true (some mk), { st with likes := t.2 })
      else (.ok 200 false none, { st with likes := t.2 })
    else (.err 404, st)

/-- toggleCommentLike (like.controller.js). -/
def toggleCommentLike (st : LikeState) (userId : Option Nat) (commentId : Nat) :
    ToggleOutcome × LikeState :=
  match userId with
  | none => (.err 401, st)
  | some uid =>
    if st.comments.contains commentId then
      let mk : LikeRow := ⟨none, some commentId, none, uid⟩
      let t := toggleCore (likeCommentKey commentId uid) mk st.likes
      if t.1 then (.ok 201 true (some mk), { st with likes := t.2 })
      else (.ok 200 false none, { st with likes := t.2 })
    else (.err 404, st)

/-- toggleTweetLike (like.controller.js). -/
def toggleTweetLike (st : LikeState) (userId : Option Nat) (tweetId : Nat) :
    ToggleOutcome × LikeState :=
  match userId with
  | none => (.err 401, st)
  | some uid =>
    if st.tweets.contains tweetId then
      let mk : LikeRow := ⟨none, none, some tweetId, uid⟩
      let t := toggleCore (likeTweetKey tweetId uid) mk st.likes
      if t.1 then (.ok 201 true (some mk), { st with likes := t.2 })
      else (.ok 200 false none, { st with likes := t.2 })
    else (.err 404, st)

structure SubRow where
  subscriber : Nat
  channel : Nat
deriving DecidableEq

structure SubState where
  users : List Nat
  subs : List SubRow
deriving DecidableEq

inductive SubOutcome
  | err (status : Nat)
  | ok (status : Nat) (record : Option SubRow)
deriving DecidableEq

/-- Key used by toggleSubscription: Subscription.findOne({subscriber, channel}). -/
def subKey (actorId channelId : Nat) (r : SubRow) : Bool :=
  r.subscriber == actorId && r.channel == channelId

/-- toggleSubscription (subscription.controller.js): 400 on self-subscription,
404 when the channel does not exist, otherwise unsubscribe (200, null data)
or subscribe (201 with the created row). -/
def toggleSubscription (st : SubState) (actorId channelId : Nat) :
    SubOutcome × SubState :=
  if channelId = actorId then (.err 400, st)
  else if st.users.contains channelId then
    let mk : SubRow := ⟨actorId, channelId⟩
    let t := toggleCore (subKey actorId channelId) mk st.subs
    if t.1 then (.ok 201 (some mk), { st with subs := t.2 })
    else (.ok 200 none, { st with subs := t.2 })
  else (.err 404, st)

/-- The liked flag reported by a like-toggle response (false for errors). -/
def ToggleOutcome.likedFlag : ToggleOutcome → Bool
  | .ok _ b _ => b
  | .err _ => false

/-- Whether a subscription-toggle response reports the relation active: the
201 response carries the created row, the 200 unsubscribe response carries
null data. -/
def SubOutcome.active : SubOutcome → Bool
  | .ok _ r => r.isSome
  | .err _ => false

/-! ### JS string trim -/

/-- Drop trailing elements satisfying `p` (the right half of a trim). -/
def rtrimBy {α : Type} (p : α → Bool) (l : List α) : List α :=
  (l.reverse.dropWhile p).reverse

/-- Drop leading and trailing elements satisfying `p`. -/
def trimBy {α : Type} (p : α → Bool) (l : List α) : List α :=
  rtrimBy p (l.dropWhile p)

/-- JavaScript String.prototype.trim: strip leading and trailing whitespace. -/
def jsTrim (s : String) : String := ⟨trimBy Char.isWhitespace s.data⟩

/-! ### Actors and ownership checks -/

/-- The authenticated request user (req.user): id plus the role fields the
controllers consult. -/
structure Actor where
  id : Nat
  role : Option String
  isAdmin : Bool
deriving DecidableEq

/-- updateComment / deleteComment admin test:
req.user?.role === "admin" or req.user?.isAdmin === true. -/
def commentAdminCheck (a : Actor) : Bool :=
  a.role == some "admin" || a.isAdmin

/-- Playlist controllers admin test:
requestingUser.role && requestingUser.role === "admin". -/
def playlistAdminCheck (a : Actor) : Bool :=
  a.role == some "admin"

inductive OpResult
  | err (status : Nat)
  | ok (status : Nat)
deriving DecidableEq

/-! ### Comment controller (updateComment, deleteComment) -/

structure Comment where
  id : Nat
  content : String
  video : Nat
  owner : Nat
deriving DecidableEq

structure CommentState where
  comments : List Comment
deriving DecidableEq

/-- updateComment: content validated first (falsy or all-whitespace is 400),
then findById (404), then owner-or-admin (403), then save the trimmed
content on the found comment. -/
def updateComment (st : CommentState) (a : Actor) (commentId : Nat)
    (content : Option String) : OpResult × CommentState :=
  match content with
  | none => (.err 400, st)
  | some c =>
    if jsTrim c = "" then (.err 400, st)
    else
      match st.comments.find? (fun x => x.id == commentId) with
      | none => (.err 404, st)
      | some cm =>
        if cm.owner == a.id || commentAdminCheck a then
          (.ok 200,
           ⟨st.comments.map (fun x =>
              if x.id == commentId then { x with content := jsTrim c } else x)⟩)
        else (.err 403, st)

/-- deleteComment: findById (404), owner-or-admin (403), then
Comment.deleteOne({_id: commentId}). -/
def deleteComment (st : CommentState) (a : Actor) (commentId : Nat) :
    OpResult × CommentState :=
  match st.comments.find? (fun x => x.id == commentId) with
  | none => (.err 404, st)
  | some cm =>
    if cm.owner == a.id || commentAdminCheck a then
      (.ok 200, ⟨st.comments.eraseP (fun x => x.id == commentId)⟩)
    else (.err 403, st)

/-! ### Tweet controller -/

structure Tweet where
  id : Nat
  content : String
  owner : Nat
deriving DecidableEq

structure TweetState where
  users : List Nat
  tweets : List Tweet
deriving DecidableEq

/-- createTweet (tweet.controller.js): 401 without an actor, 400 for empty
trimmed content or more than 280 characters, 404 when the owner does not
exist, otherwise create with the trimmed content.  `content = none` models a
missing or non-string body field (JS coerces it to "").  `freshId` stands
for the id the database assigns to the created document. -/
def createTweet (st : TweetState) (actor : Option Nat) (content : Option String)
    (freshId : Nat) : OpResult × TweetState :=
  match actor with
  | none => (.err 401, st)
  | some ownerId =>
    let rawContent := match content with
      | some s => jsTrim s
      | none => ""
    if rawContent = "" then (.err 400, st)
    else if 280 < rawContent.length then (.err 400, st)
    else if st.users.contains ownerId then
      (.ok 201, ⟨st.users, st.tweets ++ [⟨freshId, rawContent, ownerId⟩]⟩)
    else (.err 404, st)

/-- updateTweet (tweet.controller.js): findById (404), then owner-only check
(403, no admin bypass), then content presence (400), emptiness (400) and
length (400) checks, then save. -/
def updateTweet (st : TweetState) (a : Actor) (tweetId : Nat)
    (content : Option String) : OpResult × TweetState :=
  match st.tweets.find? (fun t => t.id == tweetId) with
  | none => (.err 404, st)
  | some tw =>
    if tw.owner == a.id then
      match content with
      | none => (.err 400, st)
      | some c =>
        let newContent := jsTrim c
        if newContent = "" then (.err 400, st)
        else if 280 < newContent.length then (.err 400, st)
        else
          (.ok 200,
           ⟨st.users, st.tweets.map (fun t =>
              if t.id == tweetId then { t with content := newContent } else t)⟩)
    else (.err 403, st)

/-- deleteTweet (tweet.controller.js): findById (404), owner-only check
(403, no admin bypass), then tweet.deleteOne(). -/
def deleteTweet (st : TweetState) (a : Actor) (tweetId : Nat) :
    OpResult × TweetState :=
  match st.tweets.find? (fun t => t.id == tweetId) with
  | none => (.err 404, st)
  | some tw =>
    if tw.owner == a.id then
      (.ok 200, ⟨st.users, st.tweets.eraseP (fun t => t.id == tweetId)⟩)
    else (.err 403, st)

/-- getUserTweets meta (tweet.controller.js): total =
Tweet.countDocuments({owner: userId}) and totalPages = Math.ceil(total /
limit), returned as (total, totalPages). -/
def getUserTweetsMeta (st : TweetState) (userId : Nat) (limit : Option Int) :
    Nat × Nat :=
  let limitN := (tweetsLimit limit).toNat
  let total := st.tweets.countP (fun t => t.owner == userId)
  (total, (total + limitN - 1) / limitN)

/-- The tweet-content invariant of claim C8: non-empty after trimming and at
most 280 characters. -/
def TweetContentOk (t : Tweet) : Prop :=
  jsTrim t.content ≠ "" ∧ t.content.length ≤ 280

instance (t : Tweet) : Decidable (TweetContentOk t) := by
  unfold TweetContentOk
  infer_instance

/-! ### Playlist controller -/

structure Playlist where
  id : Nat
  name : String
  description : String
  owner : Nat
  videos : List Nat
deriving DecidableEq

structure PlaylistState where
  videos : List Nat
  playlists : List Playlist
deriving DecidableEq

/-- createPlaylist: 400 when name or description is falsy, 401 without an
actor, otherwise create with trimmed fields and an empty video list. -/
def createPlaylist (st : PlaylistState) (actor : Option Nat)
    (name description : Option String) (freshId : Nat) : OpResult × PlaylistState :=
  if name.getD "" = "" ∨ description.getD "" = "" then (.err 400, st)
  else match actor with
    | none => (.err 401, st)
    | some ownerId =>
      (.ok 201,
       ⟨st.videos,
        st.playlists ++
          [⟨freshId, jsTrim (name.getD ""), jsTrim (description.getD ""), ownerId, []⟩]⟩)

/-- updatePlaylist: 400 when no updatable field is present, findById (404),
owner-or-admin (403), then Object.assign of the trimmed present fields. -/
def updatePlaylist (st : PlaylistState) (a : Actor) (playlistId : Nat)
    (name description : Option String) : OpResult × PlaylistState :=
  if name.isNone && description.isNone then (.err 400, st)
  else match st.playlists.find? (fun p => p.id == playlistId) with
    | none => (.err 404, st)
    | some pl =>
      if pl.owner == a.id || playlistAdminCheck a then
        (.ok 200,
         ⟨st.videos,
          st.playlists.map (fun p =>
            if p.id == playlistId then
              { p with
                name := match name with | some n => jsTrim n | none => p.name,
                description :=
                  match description with | some d => jsTrim d | none => p.description }
            else p)⟩)
      else (.err 403, st)

/-- deletePlaylist: findById (404), owner-or-admin (403), then remove. -/
def deletePlaylist (st : PlaylistState) (a : Actor) (playlistId : Nat) :
    OpResult × PlaylistState :=
  match st.playlists.find? (fun p => p.id == playlistId) with
  | none => (.err 404, st)
  | some pl =>
    if pl.owner == a.id || playlistAdminCheck a then
      (.ok 200, ⟨st.videos, st.playlists.eraseP (fun p => p.id == playlistId)⟩)
    else (.err 403, st)

/-- Mongo $addToSet on an array field: append only when not yet present. -/
def addToSet (l : List Nat) (v : Nat) : List Nat :=
  if l.contains v then l else l ++ [v]

/-- addVideoToPlaylist: findById (404), owner-or-admin (403), video existence
(404), then findByIdAndUpdate with $addToSet {videos: videoId}. -/
def addVideoToPlaylist (st : PlaylistState) (a : Actor) (playlistId videoId : Nat) :
    OpResult × PlaylistState :=
  match st.playlists.find? (fun p => p.id == playlistId) with
  | none => (.err 404, st)
  | some pl =>
    if pl.owner == a.id || playlistAdminCheck a then
      if st.videos.contains videoId then
        (.ok 200,
         ⟨st.videos,
          st.playlists.map (fun p =>
            if p.id == playlistId then { p with videos := addToSet p.videos videoId }
            else p)⟩)
      else (.err 404, st)
    else (.err 403, st)

/-- removeVideoFromPlaylist: findById (404), owner-or-admin (403), then
findByIdAndUpdate with $pull {videos: videoId}, which removes every
occurrence. -/
def removeVideoFromPlaylist (st : PlaylistState) (a : Actor)
    (playlistId videoId : Nat) : OpResult × PlaylistState :=
  match st.playlists.find? (fun p => p.id == playlistId) with
  | none => (.err 404, st)
  | some pl =>
    if pl.owner == a.id || playlistAdminCheck a then
      (.ok 200,
       ⟨st.videos,
        st.playlists.map (fun p =>
          if p.id == playlistId then { p with videos := p.videos.filter (fun v => v != videoId) }
          else p)⟩)
    else (.err 403, st)

/-! ### Sort selection per list endpoint -/

inductive SortDir
  | asc
  | desc
deriving DecidableEq

/-- getVideoComments: req.query.sort === "oldest" ? createdAt asc : createdAt desc. -/
def commentsSort (s : Option String) : SortDir :=
  if s = some "oldest" then .asc else .desc

/-- getUserTweets: req.query.sort === "oldest" ? createdAt asc : createdAt desc. -/
def tweetsSort (s : Option String) : SortDir :=
  if s = some "oldest" then .asc else .desc

/-- getUserPlaylists: req.query.sortBy === "oldest" ? createdAt asc : createdAt desc. -/
def playlistsSort (s : Option String) : SortDir :=
  if s = some "oldest" then .asc else .desc

/-- getLikedVideos: const sort = req.query.sort || "-createdAt"; the value is
handed to Mongoose .sort() unchanged (an absent or empty parameter gives the
default newest-first spec "-createdAt"). -/
def likedVideosSort (s : Option String) : String :=
  match s with
  | none => "-createdAt"
  | some v => if v = "" then "-createdAt" else v

/-- getAllVideos: the sort field is whatever string sortBy holds
(destructuring default "createdAt"). -/
def videosSortField (sortBy : Option String) : String := sortBy.getD "createdAt"

/-- getAllVideos: sortStage[sortBy] = sortType === "asc" ? 1 : -1. -/
def videosSortDir (sortType : Option String) : SortDir :=
  if sortType = some "asc" then .asc else .desc

/-! ### Paginated list pipelines

The stored lists are in insertion order, which for documents with
`timestamps: true` is ascending createdAt order; the newest-first orderings
used as defaults are therefore the reverses of the stored lists.  The
optional case-insensitive name filter of getUserPlaylists (absent `q`) is
not modelled; sort strings other than ascending-createdAt are interpreted as
the default newest-first order (the claims proved below either concern the
sort specification itself or are independent of the ordering). -/

structure ListMeta where
  total : Nat
  page : Nat
  limit : Nat
  pages : Nat
deriving DecidableEq

/-- getUserPlaylists: filter by owner, sort, skip (page-1)*limit, take limit,
meta = {total, page, limit, pages: Math.ceil(total/limit)}. -/
def getUserPlaylists (st : PlaylistState) (userId : Nat)
    (page limit : Option Int) (sortBy : Option String) :
    List Playlist × ListMeta :=
  let pageN := (playlistsPage page).toNat
  let limitN := (playlistsLimit limit).toNat
  let skip := (pageN - 1) * limitN
  let matching := st.playlists.filter (fun p => p.owner == userId)
  let sorted := if playlistsSort sortBy = .asc then matching else matching.reverse
  let items := (sorted.drop skip).take limitN
  (items, ⟨matching.length, pageN, limitN, (matching.length + limitN - 1) / limitN⟩)

/-- getLikedVideos: match likes of the user whose video field is set, sort,
skip/limit, populate each like's video against the video table and drop rows
whose video no longer exists (.filter(Boolean)); meta.pages =
Math.ceil(total/limit) or-else 1. -/
def getLikedVideos (st : LikeState) (userId : Nat) (page limit : Option Int)
    (sort : Option String) : List Nat × ListMeta :=
  let pageN := (likedVideosPage page).toNat
  let limitN := (likedVideosLimit limit).toNat
  let skip := (pageN - 1) * limitN
  let matching := st.likes.filter (fun r => r.likedBy == userId && r.video != none)
  let sorted := if likedVideosSort sort = "createdAt" then matching else matching.reverse
  let window := (sorted.drop skip).take limitN
  let items := window.filterMap (fun r =>
    match r.video with
    | some v => if st.videos.contains v then some v else none
    | none => none)
  let total := matching.length
  let pages0 := (total + limitN - 1) / limitN
  (items, ⟨total, pageN, limitN, if pages0 = 0 then 1 else pages0⟩)

/-- Twelve playlists owned by user 1, ids 1..12 in creation order (the
concrete state of the claim C4 scenario). -/
def twelvePlaylists : PlaylistState :=
  ⟨[], (List.range 12).map (fun i => ⟨i + 1, "", "", 1, []⟩)⟩

/-! ### Generic facts about the toggle core -/

theorem toggleCore_absent {α : Type} {key : α → Bool} (mk : α) {rows : List α}
    (h : ∀ r ∈ rows, ¬ key r = true) :
    toggleCore key mk rows = (true, rows ++ [mk]) := by
  simp only [toggleCore, List.find?_eq_none.mpr h]

theorem toggleCore_present {α : Type} {key : α → Bool} (mk : α) {rows : List α}
    (h : ∃ r ∈ rows, key r = true) :
    toggleCore key mk rows = (false, rows.eraseP key) := by
  obtain ⟨r, hr, hk⟩ := h
  cases hfind : rows.find? key with
  | none => exact absurd hk (List.find?_eq_none.mp hfind r hr)
  | some a => simp only [toggleCore, hfind]

/-- Deleting the found row removes exactly one matching row and nothing else. -/
theorem eraseP_delete_facts {α : Type} {p : α → Bool} {l : List α}
    (h : ∃ r ∈ l, p r = true) :
    (l.eraseP p).Sublist l ∧ (l.eraseP p).length + 1 = l.length ∧
    (l.eraseP p).countP p + 1 = l.countP p := by
  obtain ⟨a, ha, hpa⟩ := h
  refine ⟨List.eraseP_sublist l, ?_, ?_⟩
  · rw [List.length_eraseP_of_mem ha hpa]
    have hpos := List.length_pos_of_mem ha
    omega
  · obtain ⟨b, l₁, l₂, hl₁, hpb, hdec, her⟩ := List.exists_of_eraseP ha hpa
    rw [her, hdec]
    simp only [List.countP_append, List.countP_cons, hpb, if_true]
    omega

/-- Double application of the toggle core flips the reported flag twice and
returns a permutation of the original rows, provided the rows satisfy the
relation uniqueness invariant for the key and matching rows have the
canonical field layout. -/
theorem toggleCore_double {α : Type} {key : α → Bool} {mk : α} {rows : List α}
    (hmk : key mk = true)
    (hcanon : ∀ r ∈ rows, key r = true → r = mk)
    (hcount : rows.countP key ≤ 1) :
    (toggleCore key mk rows).1 = !(rows.any key) ∧
    (toggleCore key mk (toggleCore key mk rows).2).1 = rows.any key ∧
    (toggleCore key mk (toggleCore key mk rows).2).2.Perm rows := by
  by_cases hany : rows.any key = true
  · have hmem : mk ∈ rows := by
      obtain ⟨a, ha, hka⟩ := List.any_eq_true.mp hany
      exact (hcanon a ha hka) ▸ ha
    have h1 : toggleCore key mk rows = (false, rows.eraseP key) :=
      toggleCore_present mk ⟨mk, hmem, hmk⟩
    obtain ⟨b, l₁, l₂, hl₁, hpb, hdec, her⟩ := List.exists_of_eraseP hmem hmk
    have hbmk : b = mk := hcanon b (hdec ▸ List.mem_append_right l₁ (List.mem_cons_self b l₂)) hpb
    rw [hbmk] at hdec hpb
    have hcount2 : l₂.countP key = 0 := by
      have := hdec ▸ hcount
      simp only [List.countP_append, List.countP_cons, hpb, if_true] at this
      omega
    have hl₂ : ∀ r ∈ l₂, ¬ key r = true := List.countP_eq_zero.mp hcount2
    have hnomatch : ∀ r ∈ rows.eraseP key, ¬ key r = true := by
      rw [her]
      intro r hr
      rcases List.mem_append.mp hr with h | h
      · exact hl₁ r h
      · exact hl₂ r h
    have h2 : toggleCore key mk (rows.eraseP key) = (true, rows.eraseP key ++ [mk]) :=
      toggleCore_absent mk hnomatch
    refine ⟨by rw [h1, hany]; rfl, by rw [h1, h2, hany], ?_⟩
    rw [h1, h2, her, hdec]
    exact (List.perm_append_singleton mk (l₁ ++ l₂)).trans List.perm_middle.symm
  · have hfalse : rows.any key = false := by
      cases h : rows.any key with
      | false => rfl
      | true => exact absurd h hany
    have hnone : ∀ r ∈ rows, ¬ key r = true := by
      intro r hr hk
      exact hany (List.any_eq_true.mpr ⟨r, hr, hk⟩)
    have h1 : toggleCore key mk rows = (true, rows ++ [mk]) := toggleCore_absent mk hnone
    have h2 : toggleCore key mk (rows ++ [mk]) = (false, (rows ++ [mk]).eraseP key) :=
      toggleCore_present mk ⟨mk, List.mem_append_right rows (List.mem_cons_self mk []), hmk⟩
    have herase : (rows ++ [mk]).eraseP key = rows := by
      rw [List.eraseP_append_right [mk] hnone]
      simp [List.eraseP_cons, hmk]
    refine ⟨by rw [h1, hfalse]; rfl, by rw [h1, h2, hfalse], ?_⟩
    rw [h1, h2, herase]

/-- Claim C6: a subscription toggle whose target channel is the actor itself
always fails with status 400 and leaves the state (hence the subscription
rows) unchanged. -/
theorem selfSubscription_rejected (st : SubState) (actorId : Nat) :
    toggleSubscription st actorId actorId = (.err 400, st) := by
  simp [toggleSubscription]

/-- Claim C1: for every authenticated actor and existing target, each toggle
operation (toggleVideoLike, toggleCommentLike, toggleTweetLike,
toggleSubscription) deletes the found relation row — one fewer row, one
fewer key match, result a sublist of the original rows — and reports
inactive (status 200, liked false / null data) when a row keyed by
(actor, target) exists; and appends exactly one new row and reports active
(status 201 with the created record) when no such row exists. -/
theorem toggle_deletes_or_creates :
    (∀ (st : LikeState) (uid videoId : Nat),
      st.videos.contains videoId = true →
      ((∃ r ∈ st.likes, likeVideoKey videoId uid r = true) →
        (toggleVideoLike st (some uid) videoId).1 = .ok 200 false none ∧
        (toggleVideoLike st (some uid) videoId).2.likes.Sublist st.likes ∧
        (toggleVideoLike st (some uid) videoId).2.likes.length + 1 = st.likes.length ∧
        (toggleVideoLike st (some uid) videoId).2.likes.countP (likeVideoKey videoId uid) + 1
          = st.likes.countP (likeVideoKey videoId uid)) ∧
      ((∀ r ∈ st.likes, ¬ likeVideoKey videoId uid r = true) →
        (toggleVideoLike st (some uid) videoId).1
          = .ok 201 true (some ⟨some videoId, none, none, uid⟩) ∧
        (toggleVideoLike st (some uid) videoId).2.likes
          = st.likes ++ [⟨some videoId, none, none, uid⟩])) ∧
    (∀ (st : LikeState) (uid commentId : Nat),
      st.comments.contains commentId = true →
      ((∃ r ∈ st.likes, likeCommentKey commentId uid r = true) →
        (toggleCommentLike st (some uid) commentId).1 = .ok 200 false none ∧
        (toggleCommentLike st (some uid) commentId).2.likes.Sublist st.likes ∧
        (toggleCommentLike st (some uid) commentId).2.likes.length + 1 = st.likes.length ∧
        (toggleCommentLike st (some uid) commentId).2.likes.countP (likeCommentKey commentId uid) + 1
          = st.likes.countP (likeCommentKey commentId uid)) ∧
      ((∀ r ∈ st.likes, ¬ likeCommentKey commentId uid r = true) →
        (toggleCommentLike st (some uid) commentId).1
          = .ok 201 true (some ⟨none, some commentId, none, uid⟩) ∧
        (toggleCommentLike st (some uid) commentId).2.likes
          = st.likes ++ [⟨none, some commentId, none, uid⟩])) ∧
    (∀ (st : LikeState) (uid tweetId : Nat),
      st.tweets.contains tweetId = true →
      ((∃ r ∈ st.likes, likeTweetKey tweetId uid r = true) →
        (toggleTweetLike st (some uid) tweetId).1 = .ok 200 false none ∧
        (toggleTweetLike st (some uid) tweetId).2.likes.Sublist st.likes ∧
        (toggleTweetLike st (some uid) tweetId).2.likes.length + 1 = st.likes.length ∧
        (toggleTweetLike st (some uid) tweetId).2.likes.countP (likeTweetKey tweetId uid) + 1
          = st.likes.countP (likeTweetKey tweetId uid)) ∧
      ((∀ r ∈ st.likes, ¬ likeTweetKey tweetId uid r = true) →
        (toggleTweetLike st (some uid) tweetId).1
          = .ok 201 true (some ⟨none, none, some tweetId, uid⟩) ∧
        (toggleTweetLike st (some uid) tweetId).2.likes
          = st.likes ++ [⟨none, none, some tweetId, uid⟩])) ∧
    (∀ (st : SubState) (actorId channelId : Nat),
      channelId ≠ actorId →
      st.users.contains channelId = true →
      ((∃ r ∈ st.subs, subKey actorId channelId r = true) →
        (toggleSubscription st actorId channelId).1 = .ok 200 none ∧
        (toggleSubscription st actorId channelId).2.subs.Sublist st.subs ∧
        (toggleSubscription st actorId channelId).2.subs.length + 1 = st.subs.length ∧
        (toggleSubscription st actorId channelId).2.subs.countP (subKey actorId channelId) + 1
          = st.subs.countP (subKey actorId channelId)) ∧
      ((∀ r ∈ st.subs, ¬ subKey actorId channelId r = true) →
        (toggleSubscription st actorId channelId).1 = .ok 201 (some ⟨actorId, channelId⟩) ∧
        (toggleSubscription st actorId channelId).2.subs
          = st.subs ++ [⟨actorId, channelId⟩])) := by
  refine ⟨?_, ?_, ?_, ?_⟩
  · intro st uid videoId hcont
    constructor
    · intro hex
      have hcore := toggleCore_present (⟨some videoId, none, none, uid⟩ : LikeRow) hex
      have hfacts := eraseP_delete_facts hex
      simp only [toggleVideoLike, hcont, if_true, hcore]
      exact ⟨rfl, hfacts.1, hfacts.2.1, hfacts.2.2⟩
    · intro hnone
      have hcore := toggleCore_absent (⟨some videoId, none, none, uid⟩ : LikeRow) hnone
      have hmem : videoId ∈ st.videos := by simpa using hcont
      simp [toggleVideoLike, hmem, hcore]
  · intro st uid commentId hcont
    constructor
    · intro hex
      have hcore := toggleCore_present (⟨none, some commentId, none, uid⟩ : LikeRow) hex
      have hfacts := eraseP_delete_facts hex
      simp only [toggleCommentLike, hcont, if_true, hcore]
      exact ⟨rfl, hfacts.1, hfacts.2.1, hfacts.2.2⟩
    · intro hnone
      have hcore := toggleCore_absent (⟨none, some commentId, none, uid⟩ : LikeRow) hnone
      have hmem : commentId ∈ st.comments := by simpa using hcont
      simp [toggleCommentLike, hmem, hcore]
  · intro st uid tweetId hcont
    constructor
    · intro hex
      have hcore := toggleCore_present (⟨none, none, some tweetId, uid⟩ : LikeRow) hex
      have hfacts := eraseP_delete_facts hex
      simp only [toggleTweetLike, hcont, if_true, hcore]
      exact ⟨rfl, hfacts.1, hfacts.2.1, hfacts.2.2⟩
    · intro hnone
      have hcore := toggleCore_absent (⟨none, none, some tweetId, uid⟩ : LikeRow) hnone
      have hmem : tweetId ∈ st.tweets := by simpa using hcont
      simp [toggleTweetLike, hmem, hcore]
  · intro st actorId channelId hne hcont
    constructor
    · intro hex
      have hcore := toggleCore_present (⟨actorId, channelId⟩ : SubRow) hex
      have hfacts := eraseP_delete_facts hex
      simp only [toggleSubscription, if_neg hne, hcont, if_true, hcore]
      exact ⟨rfl, hfacts.1, hfacts.2.1, hfacts.2.2⟩
    · intro hnone
      have hcore := toggleCore_absent (⟨actorId, channelId⟩ : SubRow) hnone
      have hmem : channelId ∈ st.users := by simpa using hcont
      simp [toggleSubscription, hne, hmem, hcore]

/-! ### Wrapper reductions: each controller toggle in terms of the core -/

theorem toggleVideoLike_unfold (st : LikeState) (uid videoId : Nat)
    (hcont : st.videos.contains videoId = true) :
    (toggleVideoLike st (some uid) videoId).1.likedFlag
        = (toggleCore (likeVideoKey videoId uid) ⟨some videoId, none, none, uid⟩ st.likes).1 ∧
    (toggleVideoLike st (some uid) videoId).2.likes
        = (toggleCore (likeVideoKey videoId uid) ⟨some videoId, none, none, uid⟩ st.likes).2 ∧
    (toggleVideoLike st (some uid) videoId).2.videos = st.videos := by
  have hmem : videoId ∈ st.videos := by simpa using hcont
  cases hb : (toggleCore (likeVideoKey videoId uid) ⟨some videoId, none, none, uid⟩ st.likes).1 <;>
    simp [toggleVideoLike, hmem, hb, ToggleOutcome.likedFlag]

theorem toggleCommentLike_unfold (st : LikeState) (uid commentId : Nat)
    (hcont : st.comments.contains commentId = true) :
    (toggleCommentLike st (some uid) commentId).1.likedFlag
        = (toggleCore (likeCommentKey commentId uid) ⟨none, some commentId, none, uid⟩ st.likes).1 ∧
    (toggleCommentLike st (some uid) commentId).2.likes
        = (toggleCore (likeCommentKey commentId uid) ⟨none, some commentId, none, uid⟩ st.likes).2 ∧
    (toggleCommentLike st (some uid) commentId).2.comments = st.comments := by
  have hmem : commentId ∈ st.comments := by simpa using hcont
  cases hb : (toggleCore (likeCommentKey commentId uid) ⟨none, some commentId, none, uid⟩ st.likes).1 <;>
    simp [toggleCommentLike, hmem, hb, ToggleOutcome.likedFlag]

theorem toggleTweetLike_unfold (st : LikeState) (uid tweetId : Nat)
    (hcont : st.tweets.contains tweetId = true) :
    (toggleTweetLike st (some uid) tweetId).1.likedFlag
        = (toggleCore (likeTweetKey tweetId uid) ⟨none, none, some tweetId, uid⟩ st.likes).1 ∧
    (toggleTweetLike st (some uid) tweetId).2.likes
        = (toggleCore (likeTweetKey tweetId uid) ⟨none, none, some tweetId, uid⟩ st.likes).2 ∧
    (toggleTweetLike st (some uid) tweetId).2.tweets = st.tweets := by
  have hmem : tweetId ∈ st.tweets := by simpa using hcont
  cases hb : (toggleCore (likeTweetKey tweetId uid) ⟨none, none, some tweetId, uid⟩ st.likes).1 <;>
    simp [toggleTweetLike, hmem, hb, ToggleOutcome.likedFlag]

theorem toggleSubscription_unfold (st : SubState) (actorId channelId : Nat)
    (hne : channelId ≠ actorId)
    (hcont : st.users.contains channelId = true) :
    (toggleSubscription st actorId channelId).1.active
        = (toggleCore (subKey actorId channelId) ⟨actorId, channelId⟩ st.subs).1 ∧
    (toggleSubscription st actorId channelId).2.subs
        = (toggleCore (subKey actorId channelId) ⟨actorId, channelId⟩ st.subs).2 ∧
    (toggleSubscription st actorId channelId).2.users = st.users := by
  have hmem : channelId ∈ st.users := by simpa using hcont
  cases hb : (toggleCore (subKey actorId channelId) ⟨actorId, channelId⟩ st.subs).1 <;>
    simp [toggleSubscription, hne, hmem, hb, SubOutcome.active]

/-- Claim C7: for every valid (actor, target) pair, against any state
satisfying the relation uniqueness invariant, toggling twice restores the
original relation rows (up to permutation): the reported active flag is the
negation of the initial row presence on the first call and equals it on the
second, for all four toggle operations. -/
theorem toggle_twice_restores_state :
    (∀ (st : LikeState) (uid videoId : Nat),
      st.videos.contains videoId = true →
      (∀ r ∈ st.likes, likeVideoKey videoId uid r = true →
        r = ⟨some videoId, none, none, uid⟩) →
      st.likes.countP (likeVideoKey videoId uid) ≤ 1 →
      (toggleVideoLike st (some uid) videoId).1.likedFlag
          = !(st.likes.any (likeVideoKey videoId uid)) ∧
      (toggleVideoLike (toggleVideoLike st (some uid) videoId).2 (some uid) videoId).1.likedFlag
          = st.likes.any (likeVideoKey videoId uid) ∧
      (toggleVideoLike (toggleVideoLike st (some uid) videoId).2 (some uid) videoId).2.likes.Perm
          st.likes) ∧
    (∀ (st : LikeState) (uid commentId : Nat),
      st.comments.contains commentId = true →
      (∀ r ∈ st.likes, likeCommentKey commentId uid r = true →
        r = ⟨none, some commentId, none, uid⟩) →
      st.likes.countP (likeCommentKey commentId uid) ≤ 1 →
      (toggleCommentLike st (some uid) commentId).1.likedFlag
          = !(st.likes.any (likeCommentKey commentId uid)) ∧
      (toggleCommentLike (toggleCommentLike st (some uid) commentId).2 (some uid) commentId).1.likedFlag
          = st.likes.any (likeCommentKey commentId uid) ∧
      (toggleCommentLike (toggleCommentLike st (some uid) commentId).2 (some uid) commentId).2.likes.Perm
          st.likes) ∧
    (∀ (st : LikeState) (uid tweetId : Nat),
      st.tweets.contains tweetId = true →
      (∀ r ∈ st.likes, likeTweetKey tweetId uid r = true →
        r = ⟨none, none, some tweetId, uid⟩) →
      st.likes.countP (likeTweetKey tweetId uid) ≤ 1 →
      (toggleTweetLike st (some uid) tweetId).1.likedFlag
          = !(st.likes.any (likeTweetKey tweetId uid)) ∧
      (toggleTweetLike (toggleTweetLike st (some uid) tweetId).2 (some uid) tweetId).1.likedFlag
          = st.likes.any (likeTweetKey tweetId uid) ∧
      (toggleTweetLike (toggleTweetLike st (some uid) tweetId).2 (some uid) tweetId).2.likes.Perm
          st.likes) ∧
    (∀ (st : SubState) (actorId channelId : Nat),
      channelId ≠ actorId →
      st.users.contains channelId = true →
      (∀ r ∈ st.subs, subKey actorId channelId r = true → r = ⟨actorId, channelId⟩) →
      st.subs.countP (subKey actorId channelId) ≤ 1 →
      (toggleSubscription st actorId channelId).1.active
          = !(st.subs.any (subKey actorId channelId)) ∧
      (toggleSubscription (toggleSubscription st actorId channelId).2 actorId channelId).1.active
          = st.subs.any (subKey actorId channelId) ∧
      (toggleSubscription (toggleSubscription st actorId channelId).2 actorId channelId).2.subs.Perm
          st.subs) := by
  refine ⟨?_, ?_, ?_, ?_⟩
  · intro st uid videoId hcont hcanon hcount
    have hmk : likeVideoKey videoId uid ⟨some videoId, none, none, uid⟩ = true := by
      simp [likeVideoKey]
    have hd := toggleCore_double hmk hcanon hcount
    have h1 := toggleVideoLike_unfold st uid videoId hcont
    have hcont1 : (toggleVideoLike st (some uid) videoId).2.videos.contains videoId = true := by
      rw [h1.2.2]; exact hcont
    have h2 := toggleVideoLike_unfold (toggleVideoLike st (some uid) videoId).2 uid videoId hcont1
    refine ⟨?_, ?_, ?_⟩
    · rw [h1.1]; exact hd.1
    · rw [h2.1, h1.2.1]; exact hd.2.1
    · rw [h2.2.1, h1.2.1]; exact hd.2.2
  · intro st uid commentId hcont hcanon hcount
    have hmk : likeCommentKey commentId uid ⟨none, some commentId, none, uid⟩ = true := by
      simp [likeCommentKey]
    have hd := toggleCore_double hmk hcanon hcount
    have h1 := toggleCommentLike_unfold st uid commentId hcont
    have hcont1 : (toggleCommentLike st (some uid) commentId).2.comments.contains commentId = true := by
      rw [h1.2.2]; exact hcont
    have h2 := toggleCommentLike_unfold (toggleCommentLike st (some uid) commentId).2 uid commentId hcont1
    refine ⟨?_, ?_, ?_⟩
    · rw [h1.1]; exact hd.1
    · rw [h2.1, h1.2.1]; exact hd.2.1
    · rw [h2.2.1, h1.2.1]; exact hd.2.2
  · intro st uid tweetId hcont hcanon hcount
    have hmk : likeTweetKey tweetId uid ⟨none, none, some tweetId, uid⟩ = true := by
      simp [likeTweetKey]
    have hd := toggleCore_double hmk hcanon hcount
    have h1 := toggleTweetLike_unfold st uid tweetId hcont
    have hcont1 : (toggleTweetLike st (some uid) tweetId).2.tweets.contains tweetId = true := by
      rw [h1.2.2]; exact hcont
    have h2 := toggleTweetLike_unfold (toggleTweetLike st (some uid) tweetId).2 uid tweetId hcont1
    refine ⟨?_, ?_, ?_⟩
    · rw [h1.1]; exact hd.1
    · rw [h2.1, h1.2.1]; exact hd.2.1
    · rw [h2.2.1, h1.2.1]; exact hd.2.2
  · intro st actorId channelId hne hcont hcanon hcount
    have hmk : subKey actorId channelId ⟨actorId, channelId⟩ = true := by
      simp [subKey]
    have hd := toggleCore_double hmk hcanon hcount
    have h1 := toggleSubscription_unfold st actorId channelId hne hcont
    have hcont1 : (toggleSubscription st actorId channelId).2.users.contains channelId = true := by
      rw [h1.2.2]; exact hcont
    have h2 := toggleSubscription_unfold (toggleSubscription st actorId channelId).2 actorId channelId hne hcont1
    refine ⟨?_, ?_, ?_⟩
    · rw [h1.1]; exact hd.1
    · rw [h2.1, h1.2.1]; exact hd.2.1
    · rw [h2.2.1, h1.2.1]; exact hd.2.2

/-- Witness for claim C1: toggling a video like with an existing row deletes
it and reports 200 with liked false. -/
theorem toggle_deletes_or_creates_witness :
    ((⟨[5], [], [], [⟨some 5, none, none, 7⟩]⟩ : LikeState).videos.contains 5 = true) ∧
    (∃ r ∈ (⟨[5], [], [], [⟨some 5, none, none, 7⟩]⟩ : LikeState).likes,
      likeVideoKey 5 7 r = true) ∧
    (toggleVideoLike ⟨[5], [], [], [⟨some 5, none, none, 7⟩]⟩ (some 7) 5).1
      = .ok 200 false none :=
  ⟨by decide, by decide,
   ((toggle_deletes_or_creates.1 ⟨[5], [], [], [⟨some 5, none, none, 7⟩]⟩ 7 5
      (by decide)).1 (by decide)).1⟩

/-- Witness for claim C7: double-toggle from the empty like table, first
reported flag is the negation of the initial (absent) row presence. -/
theorem toggle_twice_restores_state_witness :
    ((⟨[5], [], [], []⟩ : LikeState).videos.contains 5 = true) ∧
    (toggleVideoLike ⟨[5], [], [], []⟩ (some 7) 5).1.likedFlag
      = !((⟨[5], [], [], []⟩ : LikeState).likes.any (likeVideoKey 5 7)) :=
  ⟨by decide,
   (toggle_twice_restores_state.1 ⟨[5], [], [], []⟩ 7 5
      (by decide) (by decide) (by decide)).1⟩

/-- Counterexample for claim C2 as stated: the videos list endpoint
(getAllVideos) applies no clamping, so the effective limit for the integer
input 1000 is 1000, outside [1, 100]. -/
theorem videosLimit_not_clamped :
    videosLimit (some 1000) = 1000 ∧
    ¬(1 ≤ videosLimit (some 1000) ∧ videosLimit (some 1000) ≤ 100) := by
  decide

/-- Claim C2 (amended): the liked-videos, comments, tweets and playlists list
endpoints clamp every integer limit input into [1,100] and map every page
input below 1 to effective page 1; the videos endpoint (getAllVideos) uses
the parsed page and limit unclamped. -/
theorem pagination_clamps :
    (∀ l : Int, 1 ≤ likedVideosLimit (some l) ∧ likedVideosLimit (some l) ≤ 100) ∧
    (∀ p : Int, p < 1 → likedVideosPage (some p) = 1) ∧
    (∀ l : Int, 1 ≤ commentsLimit (some l) ∧ commentsLimit (some l) ≤ 100) ∧
    (∀ p : Int, p < 1 → commentsPage (some p) = 1) ∧
    (∀ l : Int, 1 ≤ tweetsLimit (some l) ∧ tweetsLimit (some l) ≤ 100) ∧
    (∀ p : Int, p < 1 → tweetsPage (some p) = 1) ∧
    (∀ l : Int, 1 ≤ playlistsLimit (some l) ∧ playlistsLimit (some l) ≤ 100) ∧
    (∀ p : Int, p < 1 → playlistsPage (some p) = 1) ∧
    (∀ l : Int, videosLimit (some l) = l) ∧
    (∀ p : Int, videosPage (some p) = p) := by
  refine ⟨?_, ?_, ?_, ?_, ?_, ?_, ?_, ?_, ?_, ?_⟩
  · intro l
    simp only [likedVideosLimit, Option.getD_some]
    omega
  · intro p hp
    simp only [likedVideosPage, Option.getD_some]
    omega
  · intro l
    simp only [commentsLimit, Option.getD_some]
    omega
  · intro p hp
    simp only [commentsPage, Option.getD_some]
    omega
  · intro l
    simp only [tweetsLimit, tweetsLimitRaw]
    split
    · omega
    · omega
  · intro p hp
    simp only [tweetsPage, tweetsPageRaw]
    split_ifs <;> omega
  · intro l
    simp only [playlistsLimit, Option.getD_some]
    omega
  · intro p hp
    simp only [playlistsPage, Option.getD_some]
    omega
  · intro l
    rfl
  · intro p
    rfl

/-- Witness for claim C2: a limit of 1000 is clamped to 100 and a page of -5
to 1 on the liked-videos endpoint. -/
theorem pagination_clamps_witness :
    (1 ≤ likedVideosLimit (some 1000) ∧ likedVideosLimit (some 1000) ≤ 100) ∧
    ((-5 : Int) < 1 ∧ likedVideosPage (some (-5)) = 1) :=
  ⟨pagination_clamps.1 1000, by decide, pagination_clamps.2.1 (-5) (by decide)⟩

/-- Counterexample for claim C5 as stated: getLikedVideos passes the
unrecognized sort value "title" to the query unchanged instead of falling
back to the newest ordering (the "-createdAt" spec), and getAllVideos sorts
by whatever field sortBy names ("views" here) rather than createdAt. -/
theorem unrecognized_sort_passed_through :
    likedVideosSort (some "title") = "title" ∧
    likedVideosSort (some "title") ≠ "-createdAt" ∧
    videosSortField (some "views") = "views" ∧
    videosSortField (some "views") ≠ "createdAt" := by
  refine ⟨rfl, by decide, rfl, by decide⟩

/-- Claim C5 (amended): the comments, tweets and playlists list endpoints map
every sort value other than "oldest" to the newest ordering (createdAt
descending); getLikedVideos uses the newest spec "-createdAt" only when the
sort parameter is absent or empty and passes any other string through to the
query; getAllVideos sorts by the field sortBy names, descending unless
sortType is "asc". -/
theorem sort_fallback_newest :
    (∀ s : Option String, s ≠ some "oldest" → commentsSort s = .desc) ∧
    (∀ s : Option String, s ≠ some "oldest" → tweetsSort s = .desc) ∧
    (∀ s : Option String, s ≠ some "oldest" → playlistsSort s = .desc) ∧
    likedVideosSort none = "-createdAt" ∧
    likedVideosSort (some "") = "-createdAt" ∧
    (∀ v : String, v ≠ "" → likedVideosSort (some v) = v) ∧
    (∀ t : Option String, t ≠ some "asc" → videosSortDir t = .desc) := by
  refine ⟨?_, ?_, ?_, rfl, by decide, ?_, ?_⟩
  · intro s h
    simp [commentsSort, h]
  · intro s h
    simp [tweetsSort, h]
  · intro s h
    simp [playlistsSort, h]
  · intro v h
    simp [likedVideosSort, h]
  · intro t h
    simp [videosSortDir, h]

/-- Witness for claim C5: a sort value of "popular" yields the newest
(descending) ordering on the comments endpoint. -/
theorem sort_fallback_newest_witness :
    (some "popular" ≠ some "oldest") ∧ commentsSort (some "popular") = .desc :=
  ⟨by decide, sort_fallback_newest.1 (some "popular") (by decide)⟩

/-- Counterexample for claim C3 as stated: an admin (role "admin", isAdmin
true) who is not the owner receives 403 from updateTweet and the tweet is
unchanged, so the owner-or-admin rule is not applied to tweets. -/
theorem admin_cannot_update_tweet :
    updateTweet ⟨[1, 2], [⟨10, "hi", 1⟩]⟩ ⟨2, some "admin", true⟩ 10 (some "new text")
      = (.err 403, ⟨[1, 2], [⟨10, "hi", 1⟩]⟩) := by
  decide

/-- Claim C3 (amended): update and delete on Comment and Playlist succeed
exactly when the actor is the owner or an admin, and any other actor gets
403 with the state unchanged; update and delete on Tweet succeed only for
the owner — an admin who is not the owner also gets 403 with the state
unchanged.  (The comment controller additionally accepts isAdmin === true
as admin; the playlist controller checks only role === "admin".) -/
theorem ownership_rule :
    (∀ (st : CommentState) (a : Actor) (commentId : Nat) (c : String) (cm : Comment),
      jsTrim c ≠ "" →
      st.comments.find? (fun x => x.id == commentId) = some cm →
      (((updateComment st a commentId (some c)).1 = .ok 200)
          ↔ (cm.owner == a.id || commentAdminCheck a) = true) ∧
      ((cm.owner == a.id || commentAdminCheck a) = false →
        updateComment st a commentId (some c) = (.err 403, st))) ∧
    (∀ (st : CommentState) (a : Actor) (commentId : Nat) (cm : Comment),
      st.comments.find? (fun x => x.id == commentId) = some cm →
      (((deleteComment st a commentId).1 = .ok 200)
          ↔ (cm.owner == a.id || commentAdminCheck a) = true) ∧
      ((cm.owner == a.id || commentAdminCheck a) = false →
        deleteComment st a commentId = (.err 403, st))) ∧
    (∀ (st : PlaylistState) (a : Actor) (playlistId : Nat) (n : String) (pl : Playlist),
      st.playlists.find? (fun p => p.id == playlistId) = some pl →
      (((updatePlaylist st a playlistId (some n) none).1 = .ok 200)
          ↔ (pl.owner == a.id || playlistAdminCheck a) = true) ∧
      ((pl.owner == a.id || playlistAdminCheck a) = false →
        updatePlaylist st a playlistId (some n) none = (.err 403, st))) ∧
    (∀ (st : PlaylistState) (a : Actor) (playlistId : Nat) (pl : Playlist),
      st.playlists.find? (fun p => p.id == playlistId) = some pl →
      (((deletePlaylist st a playlistId).1 = .ok 200)
          ↔ (pl.owner == a.id || playlistAdminCheck a) = true) ∧
      ((pl.owner == a.id || playlistAdminCheck a) = false →
        deletePlaylist st a playlistId = (.err 403, st))) ∧
    (∀ (st : TweetState) (a : Actor) (tweetId : Nat) (c : String) (tw : Tweet),
      jsTrim c ≠ "" → (jsTrim c).length ≤ 280 →
      st.tweets.find? (fun t => t.id == tweetId) = some tw →
      (((updateTweet st a tweetId (some c)).1 = .ok 200)
          ↔ (tw.owner == a.id) = true) ∧
      ((tw.owner == a.id) = false →
        updateTweet st a tweetId (some c) = (.err 403, st))) ∧
    (∀ (st : TweetState) (a : Actor) (tweetId : Nat) (tw : Tweet),
      st.tweets.find? (fun t => t.id == tweetId) = some tw →
      (((deleteTweet st a tweetId).1 = .ok 200) ↔ (tw.owner == a.id) = true) ∧
      ((tw.owner == a.id) = false → deleteTweet st a tweetId = (.err 403, st))) := by
  refine ⟨?_, ?_, ?_, ?_, ?_, ?_⟩
  · intro st a commentId c cm hc hfind
    cases hauth : (cm.owner == a.id || commentAdminCheck a) <;>
      simp [updateComment, hc, hfind, hauth]
  · intro st a commentId cm hfind
    cases hauth : (cm.owner == a.id || commentAdminCheck a) <;>
      simp [deleteComment, hfind, hauth]
  · intro st a playlistId n pl hfind
    cases hauth : (pl.owner == a.id || playlistAdminCheck a) <;>
      simp [updatePlaylist, hfind, hauth]
  · intro st a playlistId pl hfind
    cases hauth : (pl.owner == a.id || playlistAdminCheck a) <;>
      simp [deletePlaylist, hfind, hauth]
  · intro st a tweetId c tw hc hlen hfind
    have hlen' : ¬ 280 < (jsTrim c).length := by omega
    cases hauth : (tw.owner == a.id) <;>
      simp [updateTweet, hc, hlen', hfind, hauth]
  · intro st a tweetId tw hfind
    cases hauth : (tw.owner == a.id) <;>
      simp [deleteTweet, hfind, hauth]

/-- Witness for claim C3: the owner (id 1) successfully updates their own
comment. -/
theorem ownership_rule_witness :
    (jsTrim "ok" ≠ "") ∧
    ((⟨[⟨4, "old", 9, 1⟩]⟩ : CommentState).comments.find? (fun x => x.id == 4)
      = some ⟨4, "old", 9, 1⟩) ∧
    ((updateComment ⟨[⟨4, "old", 9, 1⟩]⟩ ⟨1, none, false⟩ 4 (some "ok")).1 = .ok 200) :=
  ⟨by decide, by decide,
   ((ownership_rule.1 ⟨[⟨4, "old", 9, 1⟩]⟩ ⟨1, none, false⟩ 4 "ok" ⟨4, "old", 9, 1⟩
      (by decide) (by decide)).1).mpr (by decide)⟩

/-! ### Trim idempotence -/

theorem dropWhile_dropWhile {α : Type} (p : α → Bool) (l : List α) :
    (l.dropWhile p).dropWhile p = l.dropWhile p := by
  induction l with
  | nil => rfl
  | cons a t ih =>
    by_cases h : p a
    · simp [List.dropWhile_cons, h, ih]
    · simp [List.dropWhile_cons, h]

theorem dropWhile_eq_self_of_append {α : Type} {p : α → Bool} {C D : List α}
    (h : (C ++ D).dropWhile p = C ++ D) : C.dropWhile p = C := by
  cases C with
  | nil => rfl
  | cons a t =>
    rw [List.cons_append, List.dropWhile_cons] at h
    by_cases hp : p a
    · exfalso
      rw [if_pos hp] at h
      have hlen := congrArg List.length h
      have hle := (List.dropWhile_sublist (l := t ++ D) p).length_le
      simp only [List.length_cons] at hlen
      omega
    · rw [List.dropWhile_cons, if_neg hp]

theorem rtrimBy_append {α : Type} (p : α → Bool) (l : List α) :
    rtrimBy p l ++ (l.reverse.takeWhile p).reverse = l := by
  have h := congrArg List.reverse (List.takeWhile_append_dropWhile (p := p) (l := l.reverse))
  rw [List.reverse_append, List.reverse_reverse] at h
  exact h

theorem rtrimBy_dropWhile {α : Type} {p : α → Bool} {l : List α}
    (h : l.dropWhile p = l) : (rtrimBy p l).dropWhile p = rtrimBy p l := by
  apply dropWhile_eq_self_of_append (D := (l.reverse.takeWhile p).reverse)
  rw [rtrimBy_append p l]
  exact h

theorem rtrimBy_rtrimBy {α : Type} (p : α → Bool) (l : List α) :
    rtrimBy p (rtrimBy p l) = rtrimBy p l := by
  unfold rtrimBy
  rw [List.reverse_reverse, dropWhile_dropWhile]

theorem trimBy_trimBy {α : Type} (p : α → Bool) (l : List α) :
    trimBy p (trimBy p l) = trimBy p l := by
  unfold trimBy
  rw [rtrimBy_dropWhile (dropWhile_dropWhile p l), rtrimBy_rtrimBy]

theorem jsTrim_jsTrim (s : String) : jsTrim (jsTrim s) = jsTrim s :=
  congrArg String.mk (trimBy_trimBy Char.isWhitespace s.data)

/-- Claim C8: createTweet and updateTweet reject (400, state unchanged) any
content that is empty after trimming or longer than 280 characters, and the
bound-and-nonempty content invariant is preserved by every tweet-mutating
operation. -/
theorem tweet_content_invariant :
    (∀ (st : TweetState) (uid freshId : Nat) (c : String),
      jsTrim c = "" ∨ 280 < (jsTrim c).length →
      createTweet st (some uid) (some c) freshId = (.err 400, st)) ∧
    (∀ (st : TweetState) (a : Actor) (tweetId : Nat) (c : String) (tw : Tweet),
      st.tweets.find? (fun t => t.id == tweetId) = some tw →
      (tw.owner == a.id) = true →
      jsTrim c = "" ∨ 280 < (jsTrim c).length →
      updateTweet st a tweetId (some c) = (.err 400, st)) ∧
    (∀ (st : TweetState) (actor : Option Nat) (c : Option String) (freshId : Nat),
      (∀ t ∈ st.tweets, TweetContentOk t) →
      ∀ t ∈ (createTweet st actor c freshId).2.tweets, TweetContentOk t) ∧
    (∀ (st : TweetState) (a : Actor) (tweetId : Nat) (c : Option String),
      (∀ t ∈ st.tweets, TweetContentOk t) →
      ∀ t ∈ (updateTweet st a tweetId c).2.tweets, TweetContentOk t) ∧
    (∀ (st : TweetState) (a : Actor) (tweetId : Nat),
      (∀ t ∈ st.tweets, TweetContentOk t) →
      ∀ t ∈ (deleteTweet st a tweetId).2.tweets, TweetContentOk t) := by
  refine ⟨?_, ?_, ?_, ?_, ?_⟩
  · intro st uid freshId c h
    rcases h with h | h
    · simp [createTweet, h]
    · have hne : ¬ jsTrim c = "" := by
        intro he
        rw [he] at h
        exact absurd h (by decide)
      simp [createTweet, hne, h]
  · intro st a tweetId c tw hfind hown h
    rcases h with h | h
    · simp [updateTweet, hfind, hown, h]
    · have hne : ¬ jsTrim c = "" := by
        intro he
        rw [he] at h
        exact absurd h (by decide)
      simp [updateTweet, hfind, hown, hne, h]
  · intro st actor c freshId hinv t ht
    cases actor with
    | none =>
      simp [createTweet] at ht
      exact hinv t ht
    | some uid =>
      cases c with
      | none =>
        simp [createTweet] at ht
        exact hinv t ht
      | some s =>
        by_cases h1 : jsTrim s = ""
        · simp [createTweet, h1] at ht
          exact hinv t ht
        · by_cases h2 : 280 < (jsTrim s).length
          · simp [createTweet, h1, h2] at ht
            exact hinv t ht
          · by_cases h3 : uid ∈ st.users
            · simp [createTweet, h1, h2, h3] at ht
              rcases ht with ht | ht
              · exact hinv t ht
              · subst ht
                refine ⟨?_, ?_⟩
                · show jsTrim (jsTrim s) ≠ ""
                  rw [jsTrim_jsTrim]
                  exact h1
                · show (jsTrim s).length ≤ 280
                  omega
            · simp [createTweet, h1, h2, h3] at ht
              exact hinv t ht
  · intro st a tweetId c hinv t ht
    cases hfind : st.tweets.find? (fun x => x.id == tweetId) with
    | none =>
      simp [updateTweet, hfind] at ht
      exact hinv t ht
    | some tw =>
      cases hown : (tw.owner == a.id) with
      | false =>
        simp [updateTweet, hfind, hown] at ht
        exact hinv t ht
      | true =>
        cases c with
        | none =>
          simp [updateTweet, hfind, hown] at ht
          exact hinv t ht
        | some s =>
          by_cases h1 : jsTrim s = ""
          · simp [updateTweet, hfind, hown, h1] at ht
            exact hinv t ht
          · by_cases h2 : 280 < (jsTrim s).length
            · simp [updateTweet, hfind, hown, h1, h2] at ht
              exact hinv t ht
            · simp [updateTweet, hfind, hown, h1, h2] at ht
              obtain ⟨u, hu, hut⟩ := ht
              by_cases hid : u.id = tweetId
              · rw [if_pos hid] at hut
                subst hut
                refine ⟨?_, ?_⟩
                · show jsTrim (jsTrim s) ≠ ""
                  rw [jsTrim_jsTrim]
                  exact h1
                · show (jsTrim s).length ≤ 280
                  omega
              · rw [if_neg hid] at hut
                subst hut
                exact hinv u hu
  · intro st a tweetId hinv t ht
    cases hfind : st.tweets.find? (fun x => x.id == tweetId) with
    | none =>
      simp [deleteTweet, hfind] at ht
      exact hinv t ht
    | some tw =>
      cases hown : (tw.owner == a.id) with
      | false =>
        simp [deleteTweet, hfind, hown] at ht
        exact hinv t ht
      | true =>
        simp [deleteTweet, hfind, hown] at ht
        exact hinv t ((List.eraseP_sublist st.tweets).subset ht)

/-- Witness for claim C8: whitespace-only content is rejected by createTweet
with status 400 and an unchanged state. -/
theorem tweet_content_invariant_witness :
    (jsTrim "   " = "" ∨ 280 < (jsTrim "   ").length) ∧
    createTweet ⟨[1], []⟩ (some 1) (some "   ") 5 = (.err 400, ⟨[1], []⟩) :=
  ⟨Or.inl (by decide),
   tweet_content_invariant.1 ⟨[1], []⟩ 1 5 "   " (Or.inl (by decide))⟩

/-! ### Playlist video-set facts -/

theorem map_eq_self_of_forall {α : Type} {f : α → α} {l : List α}
    (h : ∀ a ∈ l, f a = a) : l.map f = l := by
  induction l with
  | nil => rfl
  | cons a t ih =>
    rw [List.map_cons, h a (List.mem_cons_self a t),
      ih (fun b hb => h b (List.mem_cons_of_mem a hb))]

theorem addToSet_nodup {l : List Nat} {v : Nat} (h : l.Nodup) :
    (addToSet l v).Nodup := by
  by_cases hv : v ∈ l
  · simpa [addToSet, hv] using h
  · have hnd : (l ++ [v]).Nodup :=
      (List.perm_append_singleton v l).nodup_iff.mpr (List.nodup_cons.mpr ⟨hv, h⟩)
    simpa [addToSet, hv] using hnd

/-- Claim C9: $addToSet leaves a playlist unchanged when the video is already
present (at the array level and for the whole addVideoToPlaylist operation),
and the no-duplicates property of playlist video sets is preserved by every
playlist operation. -/
theorem playlist_videos_no_duplicates :
    (∀ (l : List Nat) (v : Nat), v ∈ l → addToSet l v = l) ∧
    (∀ (st : PlaylistState) (a : Actor) (playlistId videoId : Nat),
      (∀ p ∈ st.playlists, p.id = playlistId → videoId ∈ p.videos) →
      (addVideoToPlaylist st a playlistId videoId).2 = st) ∧
    (∀ (st : PlaylistState) (actor : Option Nat) (n d : Option String) (freshId : Nat),
      (∀ p ∈ st.playlists, p.videos.Nodup) →
      ∀ p ∈ (createPlaylist st actor n d freshId).2.playlists, p.videos.Nodup) ∧
    (∀ (st : PlaylistState) (a : Actor) (playlistId videoId : Nat),
      (∀ p ∈ st.playlists, p.videos.Nodup) →
      ∀ p ∈ (addVideoToPlaylist st a playlistId videoId).2.playlists, p.videos.Nodup) ∧
    (∀ (st : PlaylistState) (a : Actor) (playlistId videoId : Nat),
      (∀ p ∈ st.playlists, p.videos.Nodup) →
      ∀ p ∈ (removeVideoFromPlaylist st a playlistId videoId).2.playlists, p.videos.Nodup) ∧
    (∀ (st : PlaylistState) (a : Actor) (playlistId : Nat) (n d : Option String),
      (∀ p ∈ st.playlists, p.videos.Nodup) →
      ∀ p ∈ (updatePlaylist st a playlistId n d).2.playlists, p.videos.Nodup) ∧
    (∀ (st : PlaylistState) (a : Actor) (playlistId : Nat),
      (∀ p ∈ st.playlists, p.videos.Nodup) →
      ∀ p ∈ (deletePlaylist st a playlistId).2.playlists, p.videos.Nodup) := by
  refine ⟨?_, ?_, ?_, ?_, ?_, ?_, ?_⟩
  · intro l v hv
    simp [addToSet, hv]
  · intro st a playlistId videoId hall
    cases hfind : st.playlists.find? (fun p => p.id == playlistId) with
    | none => simp [addVideoToPlaylist, hfind]
    | some pl =>
      cases hauth : (pl.owner == a.id || playlistAdminCheck a) with
      | false => simp [addVideoToPlaylist, hfind, hauth]
      | true =>
        by_cases hv : videoId ∈ st.videos
        · obtain ⟨vids, pls⟩ := st
          have hv2 : vids.contains videoId = true := by simpa using hv
          have hmap : pls.map (fun p =>
              if p.id == playlistId then { p with videos := addToSet p.videos videoId }
              else p) = pls := by
            apply map_eq_self_of_forall
            intro p hp
            by_cases hid : p.id = playlistId
            · have hcond : (p.id == playlistId) = true := beq_iff_eq.mpr hid
              have haddset : addToSet p.videos videoId = p.videos := by
                simp [addToSet, hall p hp hid]
              rw [if_pos hcond, haddset]
            · have hcond : ¬ (p.id == playlistId) = true := by simpa using hid
              rw [if_neg hcond]
          simp only [addVideoToPlaylist, hfind, hauth, hv2, if_true]
          rw [hmap]
        · simp [addVideoToPlaylist, hfind, hauth, hv]
  · intro st actor n d freshId hinv p hp
    by_cases hval : n.getD "" = "" ∨ d.getD "" = ""
    · simp only [createPlaylist, if_pos hval] at hp
      exact hinv p hp
    · cases actor with
      | none =>
        simp only [createPlaylist, if_neg hval] at hp
        exact hinv p hp
      | some ownerId =>
        simp only [createPlaylist, if_neg hval] at hp
        rcases List.mem_append.mp hp with h | h
        · exact hinv p h
        · rw [List.mem_singleton.mp h]
          exact List.nodup_nil
  · intro st a playlistId videoId hinv p hp
    cases hfind : st.playlists.find? (fun q => q.id == playlistId) with
    | none =>
      simp [addVideoToPlaylist, hfind] at hp
      exact hinv p hp
    | some pl =>
      cases hauth : (pl.owner == a.id || playlistAdminCheck a) with
      | false =>
        simp [addVideoToPlaylist, hfind, hauth] at hp
        exact hinv p hp
      | true =>
        by_cases hv : videoId ∈ st.videos
        · simp [addVideoToPlaylist, hfind, hauth, hv] at hp
          obtain ⟨u, hu, hut⟩ := hp
          by_cases hid : u.id = playlistId
          · rw [if_pos hid] at hut
            subst hut
            exact addToSet_nodup (hinv u hu)
          · rw [if_neg hid] at hut
            subst hut
            exact hinv u hu
        · simp [addVideoToPlaylist, hfind, hauth, hv] at hp
          exact hinv p hp
  · intro st a playlistId videoId hinv p hp
    cases hfind : st.playlists.find? (fun q => q.id == playlistId) with
    | none =>
      simp [removeVideoFromPlaylist, hfind] at hp
      exact hinv p hp
    | some pl =>
      cases hauth : (pl.owner == a.id || playlistAdminCheck a) with
      | false =>
        simp [removeVideoFromPlaylist, hfind, hauth] at hp
        exact hinv p hp
      | true =>
        simp [removeVideoFromPlaylist, hfind, hauth] at hp
        obtain ⟨u, hu, hut⟩ := hp
        by_cases hid : u.id = playlistId
        · rw [if_pos hid] at hut
          subst hut
          exact (hinv u hu).filter _
        · rw [if_neg hid] at hut
          subst hut
          exact hinv u hu
  · intro st a playlistId n d hinv p hp
    by_cases hval : (n.isNone && d.isNone) = true
    · simp only [updatePlaylist, if_pos hval] at hp
      exact hinv p hp
    · cases hfind : st.playlists.find? (fun q => q.id == playlistId) with
      | none =>
        simp [updatePlaylist, hval, hfind] at hp
        exact hinv p hp
      | some pl =>
        cases hauth : (pl.owner == a.id || playlistAdminCheck a) with
        | false =>
          simp [updatePlaylist, hval, hfind, hauth] at hp
          exact hinv p hp
        | true =>
          simp [updatePlaylist, hval, hfind, hauth] at hp
          obtain ⟨u, hu, hut⟩ := hp
          by_cases hid : u.id = playlistId
          · rw [if_pos hid] at hut
            subst hut
            exact hinv u hu
          · rw [if_neg hid] at hut
            subst hut
            exact hinv u hu
  · intro st a playlistId hinv p hp
    cases hfind : st.playlists.find? (fun q => q.id == playlistId) with
    | none =>
      simp [deletePlaylist, hfind] at hp
      exact hinv p hp
    | some pl =>
      cases hauth : (pl.owner == a.id || playlistAdminCheck a) with
      | false =>
        simp [deletePlaylist, hfind, hauth] at hp
        exact hinv p hp
      | true =>
        simp [deletePlaylist, hfind, hauth] at hp
        exact hinv p ((List.eraseP_sublist st.playlists).subset hp)

/-- Witness for claim C9: adding video 3, already present, to playlist 1
leaves the whole state unchanged. -/
theorem playlist_videos_no_duplicates_witness :
    (∀ p ∈ (⟨[3], [⟨1, "", "", 2, [3]⟩]⟩ : PlaylistState).playlists,
      p.id = 1 → 3 ∈ p.videos) ∧
    (addVideoToPlaylist ⟨[3], [⟨1, "", "", 2, [3]⟩]⟩ ⟨2, none, false⟩ 1 3).2
      = ⟨[3], [⟨1, "", "", 2, [3]⟩]⟩ :=
  ⟨by decide,
   playlist_videos_no_duplicates.2.1 ⟨[3], [⟨1, "", "", 2, [3]⟩]⟩ ⟨2, none, false⟩ 1 3
     (by decide)⟩

/-! ### Pagination meta facts -/

/-- The ceiling division (t + l - 1) / l used for page counts is the least
number of pages covering t records: characterization as two inequalities. -/
theorem ceil_div_bounds {t l : Nat} (h : 0 < l) :
    t ≤ ((t + l - 1) / l) * l ∧ ((t + l - 1) / l) * l < t + l := by
  have hdm := Nat.div_add_mod (t + l - 1) l
  have hlt := Nat.mod_lt (t + l - 1) h
  rw [Nat.mul_comm]
  generalize hq : (t + l - 1) / l = q at hdm ⊢
  generalize hm : l * q = m at hdm ⊢
  generalize hr : (t + l - 1) % l = r at hdm hlt
  omega

theorem playlistsLimit_pos (l : Option Int) : 0 < (playlistsLimit l).toNat := by
  unfold playlistsLimit
  cases l with
  | none => decide
  | some v =>
    simp only [Option.getD_some]
    omega

theorem tweetsLimit_pos (l : Option Int) : 0 < (tweetsLimit l).toNat := by
  cases l with
  | none => decide
  | some v =>
    simp only [tweetsLimit, tweetsLimitRaw]
    split_ifs <;> omega

theorem likedVideosLimit_pos (l : Option Int) : 0 < (likedVideosLimit l).toNat := by
  unfold likedVideosLimit
  cases l with
  | none => decide
  | some v =>
    simp only [Option.getD_some]
    omega

/-- Counterexample for claim C4 as stated: with zero matching records,
getLikedVideos reports meta.pages = 1 although ceil(total / limit) =
ceil(0 / 20) = 0 (last conjunct: the ceiling formula evaluates to 0). -/
theorem likedVideos_pages_not_ceil :
    (getLikedVideos ⟨[], [], [], []⟩ 7 none none none).2.total = 0 ∧
    (getLikedVideos ⟨[], [], [], []⟩ 7 none none none).2.limit = 20 ∧
    (getLikedVideos ⟨[], [], [], []⟩ 7 none none none).2.pages = 1 ∧
    ((getLikedVideos ⟨[], [], [], []⟩ 7 none none none).2.total
        + (getLikedVideos ⟨[], [], [], []⟩ 7 none none none).2.limit - 1)
      / (getLikedVideos ⟨[], [], [], []⟩ 7 none none none).2.limit = 0 := by
  decide

/-- Claim C4 (amended): for the playlists and tweets endpoints meta.pages
(totalPages) is exactly ceil(total/limit), characterized by
total ≤ pages*limit < total+limit; getLikedVideos reports ceil(total/limit)
except that a zero total reports 1; and listing page 2 with limit 5 over 12
matching records returns records 6-10 of the newest-first order with
meta.pages = 3. -/
theorem meta_pages_ceil :
    (∀ (st : PlaylistState) (userId : Nat) (page limit : Option Int)
        (sortBy : Option String),
      (getUserPlaylists st userId page limit sortBy).2.total
          ≤ (getUserPlaylists st userId page limit sortBy).2.pages
            * (getUserPlaylists st userId page limit sortBy).2.limit ∧
      (getUserPlaylists st userId page limit sortBy).2.pages
          * (getUserPlaylists st userId page limit sortBy).2.limit
        < (getUserPlaylists st userId page limit sortBy).2.total
            + (getUserPlaylists st userId page limit sortBy).2.limit) ∧
    (∀ (st : TweetState) (userId : Nat) (limit : Option Int),
      (getUserTweetsMeta st userId limit).1
          ≤ (getUserTweetsMeta st userId limit).2 * (tweetsLimit limit).toNat ∧
      (getUserTweetsMeta st userId limit).2 * (tweetsLimit limit).toNat
        < (getUserTweetsMeta st userId limit).1 + (tweetsLimit limit).toNat) ∧
    (∀ (st : LikeState) (userId : Nat) (page limit : Option Int) (sort : Option String),
      ((getLikedVideos st userId page limit sort).2.total = 0 →
        (getLikedVideos st userId page limit sort).2.pages = 1) ∧
      (0 < (getLikedVideos st userId page limit sort).2.total →
        (getLikedVideos st userId page limit sort).2.total
            ≤ (getLikedVideos st userId page limit sort).2.pages
              * (getLikedVideos st userId page limit sort).2.limit ∧
        (getLikedVideos st userId page limit sort).2.pages
            * (getLikedVideos st userId page limit sort).2.limit
          < (getLikedVideos st userId page limit sort).2.total
              + (getLikedVideos st userId page limit sort).2.limit)) ∧
    ((getUserPlaylists twelvePlaylists 1 (some 2) (some 5) none).1.map Playlist.id
        = [7, 6, 5, 4, 3] ∧
     (getUserPlaylists twelvePlaylists 1 (some 2) (some 5) none).2.pages = 3 ∧
     (getUserPlaylists twelvePlaylists 1 (some 2) (some 5) none).2.total = 12) := by
  refine ⟨?_, ?_, ?_, by decide⟩
  · intro st userId page limit sortBy
    exact ceil_div_bounds (playlistsLimit_pos limit)
  · intro st userId limit
    exact ceil_div_bounds (tweetsLimit_pos limit)
  · intro st userId page limit sort
    have hpos := likedVideosLimit_pos limit
    simp only [getLikedVideos]
    constructor
    · intro h
      rw [h]
      have hz : ((0 : Nat) + (likedVideosLimit limit).toNat - 1)
          / (likedVideosLimit limit).toNat = 0 := by
        apply Nat.div_eq_of_lt
        omega
      rw [hz]
      simp
    · intro h
      have hne : ((List.filter (fun r => r.likedBy == userId && r.video != none)
            st.likes).length + (likedVideosLimit limit).toNat - 1)
          / (likedVideosLimit limit).toNat ≠ 0 := by
        have h1 : 1 ≤ ((List.filter (fun r => r.likedBy == userId && r.video != none)
              st.likes).length + (likedVideosLimit limit).toNat - 1)
            / (likedVideosLimit limit).toNat :=
          (Nat.one_le_div_iff hpos).mpr (by omega)
        omega
      rw [if_neg hne]
      exact ceil_div_bounds hpos

/-- Witness for claim C4: one existing liked video, so total = 1 > 0 and the
ceiling bound holds at this input. -/
theorem meta_pages_ceil_witness :
    (0 < (getLikedVideos ⟨[3], [], [], [⟨some 3, none, none, 7⟩]⟩ 7 none none none).2.total) ∧
    (getLikedVideos ⟨[3], [], [], [⟨some 3, none, none, 7⟩]⟩ 7 none none none).2.total
      ≤ (getLikedVideos ⟨[3], [], [], [⟨some 3, none, none, 7⟩]⟩ 7 none none none).2.pages
        * (getLikedVideos ⟨[3], [], [], [⟨some 3, none, none, 7⟩]⟩ 7 none none none).2.limit :=
  ⟨by decide,
   ((meta_pages_ceil.2.2.1 ⟨[3], [], [], [⟨some 3, none, none, 7⟩]⟩ 7 none none none).2
     (by decide)).1⟩

/-- Claim C10: getLikedVideos returns only videos that still exist — a like
row whose video was deleted contributes no item — while meta.total counts
every like row of the user with a video reference, existing or not; the
closed conjuncts show a dangling like row that is counted in total but
produces no item. -/
theorem liked_videos_items_exist :
    (∀ (st : LikeState) (userId : Nat) (page limit : Option Int) (sort : Option String),
      (∀ v ∈ (getLikedVideos st userId page limit sort).1, v ∈ st.videos) ∧
      (getLikedVideos st userId page limit sort).2.total
        = st.likes.countP (fun r => r.likedBy == userId && r.video != none)) ∧
    ((getLikedVideos ⟨[], [], [], [⟨some 9, none, none, 7⟩]⟩ 7 none none none).1 = [] ∧
     (getLikedVideos ⟨[], [], [], [⟨some 9, none, none, 7⟩]⟩ 7 none none none).2.total = 1) := by
  constructor
  · intro st userId page limit sort
    constructor
    · intro v hv
      simp only [getLikedVideos] at hv
      obtain ⟨r, hr, hrv⟩ := List.mem_filterMap.mp hv
      cases hvid : r.video with
      | none =>
        rw [hvid] at hrv
        exact absurd hrv (by simp)
      | some x =>
        rw [hvid] at hrv
        have hrv2 : (if st.videos.contains x then some x else none) = some v := hrv
        by_cases hc : x ∈ st.videos
        · have hc2 : st.videos.contains x = true := by simpa using hc
          rw [hc2] at hrv2
          simp only [if_true, Option.some.injEq] at hrv2
          rw [← hrv2]
          exact hc
        · have hc2 : st.videos.contains x = false := by simpa using hc
          rw [hc2] at hrv2
          simp at hrv2
    · simp only [getLikedVideos]
      exact (List.countP_eq_length_filter _ _).symm
  · constructor
    · decide
    · decide

/-- Witness for claim C10: the single returned liked video 3 does exist in
the video table. -/
theorem liked_videos_items_exist_witness :
    (3 ∈ (getLikedVideos ⟨[3], [], [], [⟨some 3, none, none, 7⟩]⟩ 7 none none none).1) ∧
    3 ∈ (⟨[3], [], [], [⟨some 3, none, none, 7⟩]⟩ : LikeState).videos :=
  ⟨by decide,
   (liked_videos_items_exist.1 ⟨[3], [], [], [⟨some 3, none, none, 7⟩]⟩ 7 none none none).1
     3 (by decide)⟩

end StreamVid
